import Mathlib

/-!
Verification development for the ebpH userspace daemon sources
(`ebph/bpf_program.py` and `ebph/commands/ebph_admin.py`).

The Python code is shallowly embedded: each method becomes a total Lean
function over explicit state, exceptions become explicit outcome
constructors, and external calls (`Lib.set_setting`, `subprocess`,
`requests`, file I/O, the `ratelimit` decorator) are modelled by the
effects visible at the call site.  Machine integers are `Nat` with
explicit bounds where overflow matters.
-/

/-! ## Admin CLI (`ebph/commands/ebph_admin.py`, function `main`) -/

/-- The admin subcommands dispatched by `main` in `ebph_admin.py`.
`other` stands for any string not matched by a branch. -/
inductive AdminCmd
  | start
  | stop
  | restart
  | save
  | load
  | setCmd
  | normalize
  | sensitize
  | tolerize
  | other
deriving DecidableEq, Repr

/-- Environment of the `set` branch: whether `requests.put` raises
`ConnectionError`, and the HTTP status code of the response otherwise. -/
structure SetArgs where
  connError : Bool
  status : Nat
deriving DecidableEq, Repr

/-- Messages printed by `main` (structured stand-ins for the exact strings). -/
inductive AdminMsg
  | unableToConnect
  | failedToChange
  | changed
  | invalidCmd
deriving DecidableEq, Repr

/-- How an invocation of `main` terminates. -/
inductive AdminOutcome
  | spawnedDaemon
  | raisedNotImplemented
  | raisedNameError
  | exitFailure
  | completed
deriving DecidableEq, Repr

/-- Embedding of `main` (`ebph_admin.py`, lines 15-45).
`start`/`stop`/`restart` spawn `ebphd`; `save`, `load`, `normalize`,
`sensitize`, `tolerize` raise `NotImplementedError`.  In the `set` branch,
a `ConnectionError` from `requests.put` is caught and a message printed,
but control then falls through to `res.status_code` with `res` never
assigned, raising `NameError` before `sys.exit(-1)` can be reached. -/
def adminMain (cmd : AdminCmd) (args : SetArgs) : AdminOutcome × List AdminMsg :=
  match cmd with
  | .start => (.spawnedDaemon, [])
  | .stop => (.spawnedDaemon, [])
  | .restart => (.spawnedDaemon, [])
  | .save => (.raisedNotImplemented, [])
  | .load => (.raisedNotImplemented, [])
  | .setCmd =>
      if args.connError then
        (.raisedNameError, [.unableToConnect])
      else if args.status ≠ 200 then
        (.exitFailure, [.failedToChange])
      else
        (.completed, [.changed])
  | .normalize => (.raisedNotImplemented, [])
  | .sensitize => (.raisedNotImplemented, [])
  | .tolerize => (.raisedNotImplemented, [])
  | .other => (.exitFailure, [.invalidCmd])

/-! ## Settings (`ebph/bpf_program.py`: `change_setting`, `get_setting`,
`start_monitoring`, `stop_monitoring`) -/

/-- The tunables of the BPF program (`EBPH_SETTINGS` in `ebph/structs.py`,
as listed by the spec's Tunables section). -/
inductive EBPH_SETTINGS
  | MONITORING
  | LOG_SEQUENCES
  | ENFORCING
  | NORMAL_WAIT
  | NORMAL_FACTOR
  | NORMAL_FACTOR_DEN
  | ANOMALY_LIMIT
  | TOLERIZE_LIMIT
deriving DecidableEq, Repr

/-- The `_ebph_settings` array in BPF land: one unsigned value per tunable.
The array is fixed-size, so every lookup succeeds. -/
structure SettingsMap where
  monitoring : Nat
  log_sequences : Nat
  enforcing : Nat
  normal_wait : Nat
  normal_factor : Nat
  normal_factor_den : Nat
  anomaly_limit : Nat
  tolerize_limit : Nat
deriving DecidableEq, Repr

def SettingsMap.get (m : SettingsMap) : EBPH_SETTINGS → Nat
  | .MONITORING => m.monitoring
  | .LOG_SEQUENCES => m.log_sequences
  | .ENFORCING => m.enforcing
  | .NORMAL_WAIT => m.normal_wait
  | .NORMAL_FACTOR => m.normal_factor
  | .NORMAL_FACTOR_DEN => m.normal_factor_den
  | .ANOMALY_LIMIT => m.anomaly_limit
  | .TOLERIZE_LIMIT => m.tolerize_limit

def SettingsMap.put (m : SettingsMap) (s : EBPH_SETTINGS) (v : Nat) : SettingsMap :=
  match s with
  | .MONITORING => { m with monitoring := v }
  | .LOG_SEQUENCES => { m with log_sequences := v }
  | .ENFORCING => { m with enforcing := v }
  | .NORMAL_WAIT => { m with normal_wait := v }
  | .NORMAL_FACTOR => { m with normal_factor := v }
  | .NORMAL_FACTOR_DEN => { m with normal_factor_den := v }
  | .ANOMALY_LIMIT => { m with anomaly_limit := v }
  | .TOLERIZE_LIMIT => { m with tolerize_limit := v }

/-- A recorded invocation of `Lib.set_setting` (the libebph entry point that
writes a tunable in the BPF program). -/
inductive LibCall
  | setSetting (s : EBPH_SETTINGS) (v : Nat)
deriving DecidableEq, Repr

/-- Settings state together with the trace of `Lib.set_setting` invocations. -/
structure SettingsState where
  settings : SettingsMap
  calls : List LibCall
deriving DecidableEq, Repr

/-- Model of `Lib.set_setting`: records the invocation and writes the value.
Returns 1 when the value is already current (the `rc == 1` branch logged by
`change_setting`), 0 on a successful write. -/
def Lib_set_setting (st : SettingsState) (s : EBPH_SETTINGS) (v : Nat) : Int × SettingsState :=
  if st.settings.get s = v then
    (1, { st with calls := st.calls ++ [.setSetting s v] })
  else
    (0, { settings := st.settings.put s v, calls := st.calls ++ [.setSetting s v] })

/-- Embedding of `BPFProgram.change_setting` (`bpf_program.py`, lines 144-163).
A negative `value` is rejected up front with return code `-1`, before
`Lib.set_setting` is ever invoked. -/
def change_setting (st : SettingsState) (s : EBPH_SETTINGS) (value : Int) : Int × SettingsState :=
  if value < 0 then
    (-1, st)
  else
    Lib_set_setting st s value.toNat

/-- Embedding of `BPFProgram.get_setting` (`bpf_program.py`, lines 165-173).
The `_ebph_settings` array is fixed-size, so the lookup always succeeds. -/
def get_setting (st : SettingsState) (s : EBPH_SETTINGS) : Nat :=
  st.settings.get s

/-- Embedding of `BPFProgram.start_monitoring` with `silent=False`
(`bpf_program.py`, lines 175-188): early return 1 when MONITORING is already
truthy, otherwise `Lib.set_setting(MONITORING, True)`. -/
def start_monitoring (st : SettingsState) : Int × SettingsState :=
  if get_setting st .MONITORING ≠ 0 then
    (1, st)
  else
    Lib_set_setting st .MONITORING 1

/-- Embedding of `BPFProgram.stop_monitoring` with `silent=False`
(`bpf_program.py`, lines 190-203): early return 1 when MONITORING is already
falsy, otherwise `Lib.set_setting(MONITORING, False)`. -/
def stop_monitoring (st : SettingsState) : Int × SettingsState :=
  if get_setting st .MONITORING = 0 then
    (1, st)
  else
    Lib_set_setting st .MONITORING 0

/-! ## On-disk profile records

`EBPHProfileStruct` and `calculate_profile_magic` live in `ebph/structs.py`,
which is not among the sources; the record layout is modelled from the
spec's persisted-profile format. -/

/-- Little-endian encoding of `v` into `w` bytes. -/
def toLE : Nat → Nat → List Nat
  | 0, _ => []
  | w + 1, v => v % 256 :: toLE w (v / 256)

/-- Little-endian decoding of a byte list. -/
def fromLE : List Nat → Nat
  | [] => 0
  | b :: bs => b + 256 * fromLE bs

/-- Modelled from the spec: `calculate_profile_magic` (in `ebph/structs.py`,
not among the sources) is a 64-bit hash of the call-space size, the window
size, the LPT cell size and the struct layout version. -/
def calculate_profile_magic (csz w cell version : Nat) : Nat :=
  List.foldl (fun h x => (h * 1000003 + x) % 2 ^ 64) 5381 [csz, w, cell, version]

/-- Modelled from the spec: the fixed-size persisted profile record written
by `EBPHProfileStruct` (in `ebph/structs.py`, not among the sources) —
magic, profile key, status, five 64-bit counters, a 128-byte NUL-padded
pathname, and the two lookahead tables of `csz * csz` bytes each. -/
structure EBPHProfileStruct where
  magic : Nat
  profile_key : Nat
  status : Nat
  train_count : Nat
  last_mod_count : Nat
  normal_count : Nat
  anomalies : Nat
  sequences : Nat
  exe : List Nat
  train_lpt : List Nat
  test_lpt : List Nat
deriving DecidableEq, Repr

/-- Field bounds and lengths that every in-memory profile record satisfies:
64-bit magic, key and counters, 8-bit status, byte-valued arrays of the
fixed layout sizes for a call space of size `csz`. -/
def WFProfile (csz : Nat) (p : EBPHProfileStruct) : Prop :=
  p.magic < 2 ^ 64 ∧ p.profile_key < 2 ^ 64 ∧ p.status < 256 ∧
  p.train_count < 2 ^ 64 ∧ p.last_mod_count < 2 ^ 64 ∧ p.normal_count < 2 ^ 64 ∧
  p.anomalies < 2 ^ 64 ∧ p.sequences < 2 ^ 64 ∧
  p.exe.length = 128 ∧ (∀ b ∈ p.exe, b < 256) ∧
  p.train_lpt.length = csz * csz ∧ (∀ b ∈ p.train_lpt, b < 256) ∧
  p.test_lpt.length = csz * csz ∧ (∀ b ∈ p.test_lpt, b < 256)

instance (csz : Nat) (p : EBPHProfileStruct) : Decidable (WFProfile csz p) := by
  unfold WFProfile
  infer_instance

/-- Modelled from the spec: serializing a profile record to bytes
(`f.write(profile)` in `save_profiles`), little-endian, fields in the
order given by the persisted-profile format. -/
def serializeProfile (p : EBPHProfileStruct) : List Nat :=
  toLE 8 p.magic ++ (toLE 8 p.profile_key ++ (toLE 1 p.status ++
  (toLE 8 p.train_count ++ (toLE 8 p.last_mod_count ++ (toLE 8 p.normal_count ++
  (toLE 8 p.anomalies ++ (toLE 8 p.sequences ++
  (p.exe ++ (p.train_lpt ++ p.test_lpt)))))))))

/-- Modelled from the spec: deserializing a byte stream back into a profile
record (`f.readinto(profile)` in `load_profiles`); `none` when the stream
does not have the fixed record size. -/
def deserializeProfile (csz : Nat) (bs : List Nat) : Option EBPHProfileStruct :=
  if bs.length = 185 + 2 * (csz * csz) then
    some
      { magic := fromLE (bs.take 8)
        profile_key := fromLE ((bs.drop 8).take 8)
        status := fromLE (((bs.drop 8).drop 8).take 1)
        train_count := fromLE ((((bs.drop 8).drop 8).drop 1).take 8)
        last_mod_count := fromLE (((((bs.drop 8).drop 8).drop 1).drop 8).take 8)
        normal_count :=
          fromLE ((((((bs.drop 8).drop 8).drop 1).drop 8).drop 8).take 8)
        anomalies :=
          fromLE (((((((bs.drop 8).drop 8).drop 1).drop 8).drop 8).drop 8).take 8)
        sequences :=
          fromLE
            ((((((((bs.drop 8).drop 8).drop 1).drop 8).drop 8).drop 8).drop 8).take 8)
        exe :=
          (((((((((bs.drop 8).drop 8).drop 1).drop 8).drop 8).drop 8).drop 8).drop 8).take 128)
        train_lpt :=
          ((((((((((bs.drop 8).drop 8).drop 1).drop 8).drop 8).drop 8).drop 8).drop 8).drop 128).take (csz * csz))
        test_lpt :=
          ((((((((((bs.drop 8).drop 8).drop 1).drop 8).drop 8).drop 8).drop 8).drop 8).drop 128).drop (csz * csz)) }
  else
    none

/-- The load path of `load_profiles` for a single record: deserialize the
bytes, then discard the record unless its magic matches the current
`calculate_profile_magic()` value. -/
def loadRecord (csz magic : Nat) (bs : List Nat) : Option EBPHProfileStruct :=
  match deserializeProfile csz bs with
  | none => none
  | some p => if p.magic = magic then some p else none

/-! ## `save_profiles` (`bpf_program.py`, lines 205-232) -/

/-- One iteration of the save loop: a profile key paired with whether
`EBPHProfileStruct.from_bpf` or the file write raises for it. -/
abbrev SaveItem := Nat × Bool

/-- Loop body of `save_profiles` for one key, threading
`(saved, error, error log)`.  The `try` block covers the struct extraction
and the write; the `except` block logs the failure and increments `error`;
`saved += 1` runs unconditionally at the end of the body. -/
def saveOne (acc : Nat × Nat × List Nat) (it : SaveItem) : Nat × Nat × List Nat :=
  match acc with
  | (saved, error, log) =>
    if it.2 then
      (saved + 1, error + 1, log ++ [it.1])
    else
      (saved + 1, error, log)

/-- Embedding of `BPFProgram.save_profiles`: iterate over all profile keys,
return the `(saved, error)` pair together with the keys whose failures were
logged. -/
def save_profiles (items : List SaveItem) : (Nat × Nat) × List Nat :=
  match items.foldl saveOne (0, 0, []) with
  | (saved, error, log) => ((saved, error), log)

/-! ## `load_profiles` (`bpf_program.py`, lines 234-272) -/

/-- One file of `EBPH_DATA_DIR` as seen by the load loop: whether
opening/`readinto` raises, the parsed record when reading succeeds, and
whether `load_into_bpf` raises afterwards. -/
structure ProfileFile where
  readFails : Bool
  profile : EBPHProfileStruct
  loadFails : Bool
deriving DecidableEq, Repr

/-- State touched by `load_profiles`: the settings (with the
`Lib.set_setting` trace), the BPF `profiles` map, the userspace
`profile_key_to_exe` cache, and the error log. -/
structure DaemonState where
  settingsSt : SettingsState
  bpfProfiles : List (Nat × EBPHProfileStruct)
  keyToExe : List (Nat × List Nat)
  errLog : List Nat
deriving DecidableEq, Repr

/-- `profile.load_into_bpf(self.bpf)` followed by the
`profile_key_to_exe` update. -/
def loadIntoBpf (st : DaemonState) (p : EBPHProfileStruct) : DaemonState :=
  { st with
    bpfProfiles := st.bpfProfiles ++ [(p.profile_key, p)]
    keyToExe := st.keyToExe ++ [(p.profile_key, p.exe)] }

/-- Loop body of `load_profiles` for one file, threading
`(loaded, error, state)`.  An exception anywhere in the `try` block is
logged and counted in `error`; a magic mismatch hits `continue`, skipping
the BPF load, the exe-cache update and the trailing `loaded += 1`; the
trailing `loaded += 1` runs for every non-skipped file, successes and
failures alike. -/
def loadOne (magic : Nat) (acc : Nat × Nat × DaemonState) (f : ProfileFile) :
    Nat × Nat × DaemonState :=
  match acc with
  | (loaded, error, st) =>
    if f.readFails then
      (loaded + 1, error + 1, { st with errLog := st.errLog ++ [f.profile.profile_key] })
    else if f.profile.magic ≠ magic then
      (loaded, error, st)
    else if f.loadFails then
      (loaded + 1, error + 1, { st with errLog := st.errLog ++ [f.profile.profile_key] })
    else
      (loaded + 1, error, loadIntoBpf st f.profile)

/-- Embedding of `BPFProgram.load_profiles`: read the MONITORING setting,
stop monitoring when it is truthy, run the load loop over the data
directory, restart monitoring when it was truthy, and return the
`(loaded, error)` pair with the final state. -/
def load_profiles (magic : Nat) (files : List ProfileFile) (st : DaemonState) :
    (Nat × Nat) × DaemonState :=
  let monitoring := get_setting st.settingsSt .MONITORING
  let st1 :=
    if monitoring ≠ 0 then
      { st with settingsSt := (stop_monitoring st.settingsSt).2 }
    else st
  match files.foldl (loadOne magic) (0, 0, st1) with
  | (loaded, error, st2) =>
    let st3 :=
      if monitoring ≠ 0 then
        { st2 with settingsSt := (start_monitoring st2.settingsSt).2 }
      else st2
    ((loaded, error), st3)

/-- A file the load loop skips for magic mismatch, or logs and counts as an
error: `readFails`, or a matching magic whose `load_into_bpf` raises. -/
def loadFailsP (magic : Nat) (f : ProfileFile) : Bool :=
  f.readFails || (f.profile.magic == magic && f.loadFails)

/-- A file that reaches the trailing `loaded += 1` (everything except a
cleanly-read record with a mismatched magic). -/
def loadCountedP (magic : Nat) (f : ProfileFile) : Bool :=
  f.readFails || f.profile.magic == magic

/-! ## `on_tick` (`bpf_program.py`, lines 130-142) -/

/-- Side effects of one tick, in order. -/
inductive TickAction
  | saveAll
  | ringBufferConsume
deriving DecidableEq, Repr

/-- The per-daemon data `on_tick` reads and writes: the tick counter, the
`auto_save` flag and `defs.PROFILE_SAVE_INTERVAL`. -/
structure TickState where
  tick_count : Nat
  auto_save : Bool
  interval : Nat
deriving DecidableEq, Repr

/-- Embedding of `BPFProgram.on_tick`: increment `tick_count`, save all
profiles when `auto_save` is set and the new count is a multiple of
`PROFILE_SAVE_INTERVAL`, then drain the ring buffers. -/
def on_tick (st : TickState) : TickState × List TickAction :=
  let tc := st.tick_count + 1
  let acts :=
    (if st.auto_save ∧ tc % st.interval = 0 then [TickAction.saveAll] else []) ++
    [TickAction.ringBufferConsume]
  ({ st with tick_count := tc }, acts)

/-! ## The `ratelimit` wrapper and the `tolerize_limit_events` consumer
(`bpf_program.py`, lines 50-69 and 533-546) -/

/-- State of the fixed-window limiter that `ringbuf_callback` wraps around
every ring-buffer consumer via `@limits(calls=..., period=1,
raise_on_limit=False)` from the `ratelimit` package: the number of calls
seen in the current window and the clock value at the last window reset. -/
structure RLState where
  numCalls : Nat
  lastReset : Nat
deriving DecidableEq, Repr

/-- One wrapped invocation at clock value `now` (model of the `ratelimit`
decorator as configured at `bpf_program.py:61`): when a full period has
elapsed the window resets; the call counter is incremented; with
`raise_on_limit=False` a call beyond `calls` returns without invoking the
consumer and without raising.  Returns the new state and whether the
consumer ran. -/
def rl_step (calls period : Nat) (st : RLState) (now : Nat) : RLState × Bool :=
  let st1 := if period ≤ now - st.lastReset then RLState.mk 0 now else st
  let n := st1.numCalls + 1
  (RLState.mk n st1.lastReset, decide (n ≤ calls))

/-- Run the limited consumer over a list of invocation times, collecting
`(time, consumer ran)` for each event. -/
def rl_run (calls period : Nat) (st : RLState) (ts : List Nat) : RLState × List (Nat × Bool) :=
  match ts with
  | [] => (st, [])
  | t :: rest =>
    ((rl_run calls period (rl_step calls period st t).1 rest).1,
     (t, (rl_step calls period st t).2) ::
       (rl_run calls period (rl_step calls period st t).1 rest).2)

/-- A `tolerize_limit` event record. -/
structure TolerizeEvent where
  profile_key : Nat
  pid : Nat
  lfc : Nat
deriving DecidableEq, Repr

/-- Embedding of the `tolerize_limit_events` consumer (`bpf_program.py`,
lines 533-546): it reads `profile_key_to_exe` and emits one log line; it
writes no BPF map and no userspace state. -/
def tolerize_limit_events (st : DaemonState) (ev : TolerizeEvent) : DaemonState × TolerizeEvent :=
  (st, ev)

/-- A concrete settings state used to instantiate universally quantified
theorems. -/
def st0 : SettingsState :=
  { settings := { monitoring := 0, log_sequences := 0, enforcing := 0,
                  normal_wait := 0, normal_factor := 0, normal_factor_den := 0,
                  anomaly_limit := 0, tolerize_limit := 0 }
    calls := [] }

/-- A concrete daemon state used to instantiate universally quantified
theorems. -/
def dst0 : DaemonState :=
  { settingsSt := st0, bpfProfiles := [], keyToExe := [], errLog := [] }

/-- A concrete profile record for a call space of size 1, used to
instantiate universally quantified theorems. -/
def p0 : EBPHProfileStruct :=
  { magic := 0, profile_key := 1, status := 0, train_count := 0,
    last_mod_count := 0, normal_count := 0, anomalies := 0, sequences := 0,
    exe := List.replicate 128 0, train_lpt := [0], test_lpt := [0] }

/-- A concrete profile file whose record reads cleanly, used to instantiate
universally quantified theorems. -/
def f0 : ProfileFile :=
  { readFails := false, profile := p0, loadFails := false }

/-- The profile magic for a call space of size 1, window size 9, one-byte
LPT cells and layout version 1. -/
def magic0 : Nat := calculate_profile_magic 1 9 1 1

/-- The concrete profile record `p0` stamped with the current magic. -/
def pm0 : EBPHProfileStruct := { p0 with magic := magic0 }

/-- Invocation times used to instantiate the rate-limiter theorems: ten
calls at clock 999 and ten at clock 1000 (milliseconds), all inside one
one-second span but straddling a fixed-window boundary of the limiter. -/
def burstTs : List Nat := List.replicate 10 999 ++ List.replicate 10 1000

/-- Whether a limiter result records that the consumer was invoked. -/
def processedFlag (p : Nat × Bool) : Bool := p.2

/-- Whether a limiter result's timestamp lies in the one-second period
beginning at clock 999. -/
def inBurstSecond (p : Nat × Bool) : Bool := 999 ≤ p.1 && p.1 < 999 + 1000

/-! ## Claims -/

/-- The save loop from an arbitrary accumulator: `saved` counts every key,
`error` counts the failing ones, and each failing key is appended to the
log. -/
theorem foldl_saveOne (items : List SaveItem) :
    ∀ (s e : Nat) (log : List Nat),
      items.foldl saveOne (s, e, log) =
        (s + items.length, e + items.countP (fun it => it.2),
         log ++ (items.filter (fun it => it.2)).map (fun it => it.1)) := by
  induction items with
  | nil => intro s e log; simp
  | cons it rest ih =>
    intro s e log
    by_cases h : it.2 <;>
      simp [saveOne, h, ih, List.countP_cons, Nat.add_assoc, Nat.add_comm,
        Nat.add_left_comm, List.append_assoc]

/-- The load loop from an arbitrary accumulator: `loaded` counts every
non-skipped file, `error` counts the failing ones, failing keys are
appended to the error log, cleanly loaded records are appended to the BPF
map and the exe cache, and the settings state is untouched. -/
theorem foldl_loadOne (magic : Nat) (files : List ProfileFile) :
    ∀ (l e : Nat) (st : DaemonState),
      files.foldl (loadOne magic) (l, e, st) =
        (l + files.countP (loadCountedP magic),
         e + files.countP (loadFailsP magic),
         { settingsSt := st.settingsSt
           bpfProfiles := st.bpfProfiles ++
             (files.filter (fun f =>
               !f.readFails && f.profile.magic == magic && !f.loadFails)).map
               (fun f => (f.profile.profile_key, f.profile))
           keyToExe := st.keyToExe ++
             (files.filter (fun f =>
               !f.readFails && f.profile.magic == magic && !f.loadFails)).map
               (fun f => (f.profile.profile_key, f.profile.exe))
           errLog := st.errLog ++
             (files.filter (loadFailsP magic)).map
               (fun f => f.profile.profile_key) }) := by
  induction files with
  | nil => intro l e st; simp
  | cons f rest ih =>
    intro l e st
    by_cases h1 : f.readFails
    · simp [loadOne, h1, ih, loadCountedP, loadFailsP, List.countP_cons,
        Nat.add_assoc, Nat.add_comm, Nat.add_left_comm, List.append_assoc]
    · by_cases h2 : f.profile.magic = magic
      · by_cases h3 : f.loadFails
        · simp [loadOne, h1, h2, h3, ih, loadCountedP, loadFailsP,
            List.countP_cons, Nat.add_assoc, Nat.add_comm, Nat.add_left_comm,
            List.append_assoc]
        · simp [loadOne, loadIntoBpf, h1, h2, h3, ih, loadCountedP,
            loadFailsP, List.countP_cons, Nat.add_assoc, Nat.add_comm,
            Nat.add_left_comm, List.append_assoc]
      · simp [loadOne, h1, h2, ih, loadCountedP, loadFailsP,
          List.countP_cons, List.append_assoc]

theorem toLE_length : ∀ (w v : Nat), (toLE w v).length = w := by
  intro w
  induction w with
  | zero => intro v; rfl
  | succ w ih => intro v; simp [toLE, ih]

theorem fromLE_toLE : ∀ (w v : Nat), v < 256 ^ w → fromLE (toLE w v) = v := by
  intro w
  induction w with
  | zero =>
    intro v h
    simp [toLE, fromLE]
    omega
  | succ w ih =>
    intro v h
    have hdiv : v / 256 < 256 ^ w := by
      have h' : v < 256 ^ w * 256 := by
        calc v < 256 ^ (w + 1) := h
        _ = 256 ^ w * 256 := by rw [pow_succ]
      omega
    simp [toLE, fromLE, ih (v / 256) hdiv]
    omega

theorem take_append_len {α : Type} (l₁ l₂ : List α) (n : Nat)
    (h : l₁.length = n) : (l₁ ++ l₂).take n = l₁ := by
  subst h
  simp

theorem drop_append_len {α : Type} (l₁ l₂ : List α) (n : Nat)
    (h : l₁.length = n) : (l₁ ++ l₂).drop n = l₂ := by
  subst h
  simp

/-- Deserializing the serialization of a well-formed profile record
recovers the record exactly. -/
theorem deserialize_serialize (csz : Nat) (p : EBPHProfileStruct)
    (wf : WFProfile csz p) :
    deserializeProfile csz (serializeProfile p) = some p := by
  obtain ⟨m, k, s, tc, lmc, nc, an, sq, exe, trl, tel⟩ := p
  simp only [WFProfile] at wf
  obtain ⟨h1, h2, h3, h4, h5, h6, h7, h8, hexe, _, htr, _, hte, _⟩ := wf
  have h1' : m < 256 ^ 8 := by norm_num at h1 ⊢; omega
  have h2' : k < 256 ^ 8 := by norm_num at h2 ⊢; omega
  have h3' : s < 256 ^ 1 := by norm_num at h3 ⊢; omega
  have h4' : tc < 256 ^ 8 := by norm_num at h4 ⊢; omega
  have h5' : lmc < 256 ^ 8 := by norm_num at h5 ⊢; omega
  have h6' : nc < 256 ^ 8 := by norm_num at h6 ⊢; omega
  have h7' : an < 256 ^ 8 := by norm_num at h7 ⊢; omega
  have h8' : sq < 256 ^ 8 := by norm_num at h8 ⊢; omega
  have hlen :
      (serializeProfile ⟨m, k, s, tc, lmc, nc, an, sq, exe, trl, tel⟩).length =
        185 + 2 * (csz * csz) := by
    simp [serializeProfile, toLE_length, hexe, htr, hte]
    omega
  simp only [deserializeProfile, hlen, if_pos]
  rw [show serializeProfile ⟨m, k, s, tc, lmc, nc, an, sq, exe, trl, tel⟩ =
        toLE 8 m ++ (toLE 8 k ++ (toLE 1 s ++ (toLE 8 tc ++ (toLE 8 lmc ++
          (toLE 8 nc ++ (toLE 8 an ++ (toLE 8 sq ++
            (exe ++ (trl ++ tel))))))))) from rfl]
  rw [take_append_len _ _ _ (toLE_length 8 m),
      drop_append_len _ _ _ (toLE_length 8 m),
      take_append_len _ _ _ (toLE_length 8 k),
      drop_append_len _ _ _ (toLE_length 8 k),
      take_append_len _ _ _ (toLE_length 1 s),
      drop_append_len _ _ _ (toLE_length 1 s),
      take_append_len _ _ _ (toLE_length 8 tc),
      drop_append_len _ _ _ (toLE_length 8 tc),
      take_append_len _ _ _ (toLE_length 8 lmc),
      drop_append_len _ _ _ (toLE_length 8 lmc),
      take_append_len _ _ _ (toLE_length 8 nc),
      drop_append_len _ _ _ (toLE_length 8 nc),
      take_append_len _ _ _ (toLE_length 8 an),
      drop_append_len _ _ _ (toLE_length 8 an),
      take_append_len _ _ _ (toLE_length 8 sq),
      drop_append_len _ _ _ (toLE_length 8 sq),
      take_append_len _ _ _ hexe,
      drop_append_len _ _ _ hexe,
      take_append_len _ _ _ htr,
      drop_append_len _ _ _ htr,
      fromLE_toLE 8 m h1', fromLE_toLE 8 k h2', fromLE_toLE 1 s h3',
      fromLE_toLE 8 tc h4', fromLE_toLE 8 lmc h5', fromLE_toLE 8 nc h6',
      fromLE_toLE 8 an h7', fromLE_toLE 8 sq h8']

/-- Every item contributes to exactly one of the two complementary counts. -/
theorem countP_not_add_countP (l : List SaveItem) :
    l.countP (fun it => !it.2) + l.countP (fun it => it.2) = l.length := by
  induction l with
  | nil => simp
  | cons a t ih =>
    by_cases h : a.2 <;> simp [List.countP_cons, h] <;> omega

/-- C3: a profile whose save or load raises is logged and counted in the
per-operation error counter, and iteration continues: `save_profiles`
returns the `(count, error)` pair over the whole key list with one log
entry per failure, and `load_profiles` counts and logs exactly the failing
files while processing every file. -/
theorem C3_per_profile_failures_contained :
    ∀ (items : List SaveItem) (magic : Nat) (files : List ProfileFile)
      (st : DaemonState),
      save_profiles items =
        ((items.length, items.countP (fun it => it.2)),
         (items.filter (fun it => it.2)).map (fun it => it.1)) ∧
      (load_profiles magic files st).1.2 = files.countP (loadFailsP magic) ∧
      (load_profiles magic files st).2.errLog =
        st.errLog ++ (files.filter (loadFailsP magic)).map
          (fun f => f.profile.profile_key) := by
  intro items magic files st
  refine ⟨?_, ?_, ?_⟩
  · simp [save_profiles, foldl_saveOne]
  · by_cases hm : get_setting st.settingsSt .MONITORING ≠ 0 <;>
      simp [load_profiles, foldl_loadOne, hm]
  · by_cases hm : get_setting st.settingsSt .MONITORING ≠ 0 <;>
      simp [load_profiles, foldl_loadOne, hm]

/-- C9: the first component of `save_profiles` counts every iterated key,
including those whose save raised, so the reported success count is
successes plus failures and the error count never exceeds it. -/
theorem C9_saved_includes_failures :
    ∀ items : List SaveItem,
      (save_profiles items).1.1 = items.length ∧
      items.countP (fun it => !it.2) + items.countP (fun it => it.2) =
        (save_profiles items).1.1 ∧
      (save_profiles items).1.2 ≤ (save_profiles items).1.1 := by
  intro items
  have h := countP_not_add_countP items
  refine ⟨by simp [save_profiles, foldl_saveOne], ?_, ?_⟩
  · simp [save_profiles, foldl_saveOne, h]
  · simp only [save_profiles, foldl_saveOne]
    omega

/-- C4: a stored record whose magic differs from the current
`calculate_profile_magic()` value is discarded by the load loop: the whole
accumulator — BPF maps, key-to-exe cache, error log, and both the `loaded`
and `error` counters — is left exactly as it was. -/
theorem C4_magic_mismatch_discarded :
    ∀ (magic : Nat) (acc : Nat × Nat × DaemonState) (f : ProfileFile),
      f.readFails = false → f.profile.magic ≠ magic →
      loadOne magic acc f = acc := by
  intro magic acc f h1 h2
  obtain ⟨l, e, st⟩ := acc
  simp [loadOne, h1, h2]

/-- C4, witness at a concrete input. -/
theorem C4_magic_mismatch_discarded_witness :
    (f0.readFails = false ∧ f0.profile.magic ≠ 42) ∧
      loadOne 42 (0, 0, dst0) f0 = (0, 0, dst0) :=
  ⟨⟨by decide, by decide⟩,
   C4_magic_mismatch_discarded 42 (0, 0, dst0) f0 (by decide) (by decide)⟩

/-- C10: `load_profiles` preserves MONITORING: with the boolean MONITORING
value in {0,1}, its value after the call equals its value before, and the
`Lib.set_setting` trace shows monitoring stopped before the loop and
restarted after it exactly when it was on. -/
theorem C10_load_profiles_preserves_monitoring :
    ∀ (magic : Nat) (files : List ProfileFile) (st : DaemonState),
      get_setting st.settingsSt .MONITORING ≤ 1 →
      get_setting (load_profiles magic files st).2.settingsSt .MONITORING =
        get_setting st.settingsSt .MONITORING ∧
      (load_profiles magic files st).2.settingsSt.calls =
        (if get_setting st.settingsSt .MONITORING ≠ 0 then
          st.settingsSt.calls ++
            [.setSetting .MONITORING 0, .setSetting .MONITORING 1]
        else st.settingsSt.calls) := by
  intro magic files st hle
  by_cases hm : get_setting st.settingsSt .MONITORING = 0
  · simp [load_profiles, foldl_loadOne, hm]
  · have h1 : get_setting st.settingsSt .MONITORING = 1 := by omega
    simp [load_profiles, foldl_loadOne, hm, stop_monitoring, start_monitoring,
      Lib_set_setting, get_setting, SettingsMap.get, SettingsMap.put, h1] at h1 ⊢
    simp [h1]

/-- C10, witness at a concrete input. -/
theorem C10_load_profiles_preserves_monitoring_witness :
    get_setting dst0.settingsSt .MONITORING ≤ 1 ∧
      get_setting (load_profiles 42 [f0] dst0).2.settingsSt .MONITORING =
        get_setting dst0.settingsSt .MONITORING :=
  ⟨by decide,
   (C10_load_profiles_preserves_monitoring 42 [f0] dst0 (by decide)).1⟩

/-- C2: for every profile record whose serialization carries a matching
magic, loading the bytes produced by saving it yields the record back
unchanged — the save/load round trip is the identity. -/
theorem C2_save_load_roundtrip :
    ∀ (csz magic : Nat) (p : EBPHProfileStruct),
      WFProfile csz p → p.magic = magic →
      loadRecord csz magic (serializeProfile p) = some p := by
  intro csz magic p wf hm
  simp [loadRecord, deserialize_serialize csz p wf, hm]

set_option maxRecDepth 8000 in
/-- C2, witness at a concrete input. -/
theorem C2_save_load_roundtrip_witness :
    (WFProfile 1 pm0 ∧ pm0.magic = magic0) ∧
      loadRecord 1 magic0 (serializeProfile pm0) = some pm0 :=
  ⟨⟨by decide, by decide⟩,
   C2_save_load_roundtrip 1 magic0 pm0 (by decide) (by decide)⟩

/-- Every wrapped invocation yields exactly one result: excess calls are
dropped by returning, never by raising, so no event aborts the run. -/
theorem rl_run_length (calls period : Nat) :
    ∀ (ts : List Nat) (st : RLState),
      (rl_run calls period st ts).2.length = ts.length := by
  intro ts
  induction ts with
  | nil => intro st; rfl
  | cons t rest ih => intro st; simp [rl_run, ih]

/-- Within one fixed window of the limiter (no invocation a full period or
more after the window start), the number of invocations that reach the
consumer is bounded by the remaining budget of the window. -/
theorem rl_window_bound (calls period : Nat) :
    ∀ (ts : List Nat) (st : RLState),
      (∀ t ∈ ts, t - st.lastReset < period) →
      (rl_run calls period st ts).2.countP (fun p => p.2) ≤
        calls - st.numCalls := by
  intro ts
  induction ts with
  | nil => intro st _; simp [rl_run]
  | cons t rest ih =>
    intro st h
    have ht : t - st.lastReset < period := h t (by simp)
    have hrest : ∀ u ∈ rest, u - st.lastReset < period := by
      intro u hu
      exact h u (by simp [hu])
    have hnr : ¬ period ≤ t - st.lastReset := by omega
    have ihr : (rl_run calls period (RLState.mk (st.numCalls + 1) st.lastReset)
        rest).2.countP (fun p => p.2) ≤ calls - (st.numCalls + 1) :=
      ih (RLState.mk (st.numCalls + 1) st.lastReset) hrest
    by_cases hc : st.numCalls + 1 ≤ calls <;>
      simp [rl_run, rl_step, hnr, hc, List.countP_cons] <;>
      omega

/-- C7, counterexample: with the limiter configured at 10 calls per
one-second period, twenty `tolerize_limit` events whose timestamps all lie
inside a single one-second span (999 ms and 1000 ms) are all delivered to
the consumer, because the window resets at the 1000 ms boundary — so "at
most 10 processed in any one-second period" fails. -/
theorem C7_counterexample :
    (rl_run 10 1000 (RLState.mk 0 0) burstTs).2.countP processedFlag = 20 ∧
      (rl_run 10 1000 (RLState.mk 0 0) burstTs).2.all inBurstSecond = true := by
  decide

/-- C7, amended: the `tolerize_limit` consumer is rate-limited by a fixed
one-second window: within any one window at most 10 events reach the
consumer (so a one-second span straddling a window boundary can see up to
twice that), the excess is dropped by returning rather than raising — every
event yields a result — and the consumer itself only logs, leaving all
daemon state unchanged, so detection state never depends on delivery. -/
theorem C7_rate_limited_fixed_window :
    ∀ (calls period : Nat) (st : RLState) (ts : List Nat),
      (∀ t ∈ ts, t - st.lastReset < period) →
      (rl_run calls period st ts).2.countP (fun p => p.2) ≤
          calls - st.numCalls ∧
        (rl_run calls period st ts).2.length = ts.length ∧
        ∀ (dst : DaemonState) (ev : TolerizeEvent),
          (tolerize_limit_events dst ev).1 = dst := by
  intro calls period st ts h
  exact ⟨rl_window_bound calls period ts st h,
         rl_run_length calls period ts st,
         fun _ _ => rfl⟩

/-- C7, witness at a concrete input: eleven same-window calls, of which at
most ten reach the consumer. -/
theorem C7_rate_limited_fixed_window_witness :
    (∀ t ∈ List.replicate 11 5, t - (RLState.mk 0 0).lastReset < 1000) ∧
      ((rl_run 10 1000 (RLState.mk 0 0) (List.replicate 11 5)).2.countP
          (fun p => p.2) ≤ 10 - (RLState.mk 0 0).numCalls ∧
        (rl_run 10 1000 (RLState.mk 0 0) (List.replicate 11 5)).2.length =
          (List.replicate 11 5).length ∧
        ∀ (dst : DaemonState) (ev : TolerizeEvent),
          (tolerize_limit_events dst ev).1 = dst) :=
  ⟨by decide,
   C7_rate_limited_fixed_window 10 1000 (RLState.mk 0 0)
     (List.replicate 11 5) (by decide)⟩

/-- C1, counterexample: invoking the admin CLI with command `normalize`
(likewise `sensitize`, `tolerize`) does not map to a profile state-machine
transition — it raises `NotImplementedError`, i.e. it fails. -/
theorem C1_counterexample :
    adminMain .normalize ⟨false, 200⟩ = (.raisedNotImplemented, []) ∧
    adminMain .sensitize ⟨false, 200⟩ = (.raisedNotImplemented, []) ∧
    adminMain .tolerize ⟨false, 200⟩ = (.raisedNotImplemented, []) := by
  decide

/-- C1, amended: for every invocation of the admin CLI with command
`normalize`, `sensitize` or `tolerize`, `main` raises `NotImplementedError`
without issuing any request; the state-machine transitions of §4.D are not
reachable from this CLI. -/
theorem C1_admin_transition_commands_not_implemented :
    ∀ args : SetArgs,
      adminMain .normalize args = (.raisedNotImplemented, []) ∧
      adminMain .sensitize args = (.raisedNotImplemented, []) ∧
      adminMain .tolerize args = (.raisedNotImplemented, []) :=
  fun _ => ⟨rfl, rfl, rfl⟩

/-- C8: for the admin `set` command, when `requests.put` raises a
connection error, `main` catches it, prints the connection message, and
then terminates with `NameError` on the never-assigned `res` — the
`sys.exit(-1)` failure path is not reached. -/
theorem C8_set_conn_error_raises_name_error :
    ∀ s : Nat,
      adminMain .setCmd ⟨true, s⟩ = (.raisedNameError, [.unableToConnect]) ∧
      (adminMain .setCmd ⟨true, s⟩).1 ≠ .exitFailure := by
  intro s
  exact ⟨rfl, by simp [adminMain]⟩

/-- C5: for every setting and every negative value, `change_setting`
returns `-1` and leaves the state untouched: the settings map is unchanged
and no `Lib.set_setting` invocation is recorded. -/
theorem C5_change_setting_rejects_negative :
    ∀ (st : SettingsState) (s : EBPH_SETTINGS) (v : Int),
      v < 0 → change_setting st s v = (-1, st) := by
  intro st s v h
  simp [change_setting, h]

/-- C5, witness at a concrete input. -/
theorem C5_change_setting_rejects_negative_witness :
    (-1 : Int) < 0 ∧ change_setting st0 .MONITORING (-1) = (-1, st0) :=
  ⟨by decide, C5_change_setting_rejects_negative st0 .MONITORING (-1) (by decide)⟩

/-- C6: `on_tick` increments `tick_count` by exactly one, drains the ring
buffers, and saves all profiles exactly when `auto_save` is set and the new
tick count is a multiple of `PROFILE_SAVE_INTERVAL`. -/
theorem C6_on_tick_increments_and_saves_on_interval :
    ∀ st : TickState,
      (on_tick st).1.tick_count = st.tick_count + 1 ∧
      TickAction.ringBufferConsume ∈ (on_tick st).2 ∧
      (TickAction.saveAll ∈ (on_tick st).2 ↔
        st.auto_save ∧ (st.tick_count + 1) % st.interval = 0) := by
  intro st
  refine ⟨rfl, by simp [on_tick], ?_⟩
  by_cases h : st.auto_save ∧ (st.tick_count + 1) % st.interval = 0 <;>
    simp [on_tick, h]

